import Mathlib

/-!
Shallow embedding of the gift-matrix board engine
(src/models/table.py, src/services/table_service.py,
src/models/user.py, src/services/user_service.py).

A `Table` row is embedded as a Lean structure with the same fields;
the SQLAlchemy session fetch (`get_by_id`) is modelled by passing the
fetched row directly, and level-scoped queries are modelled over an
explicit list of rows.  Unix timestamps are `Nat`, user ids (`tid`)
are `Nat`, nullable columns are `Option`.
-/

namespace GiftMatrix

/-- `PAYMENT_TIMEOUT = 72 * 60 * 60` from models/table.py. -/
def PAYMENT_TIMEOUT : Nat := 72 * 60 * 60

/-- TableStatus.WAITING.value -/
def WAITING : String := "waiting"

/-- TableStatus.ACTIVE.value -/
def ACTIVE : String := "active"

/-- TableStatus.CLOSED.value -/
def CLOSED : String := "closed"

/-- The eight donor slot positions of models/table.py, four per side,
in the fixed intra-side order used throughout the source
(`dl1..dl4` left, `dr5..dr8` right). -/
inductive DSlot
  | dl1 | dl2 | dl3 | dl4 | dr5 | dr6 | dr7 | dr8
deriving Repr, DecidableEq, Fintype

/-- Python slot-name string of a donor slot. -/
def slotName : DSlot → String
  | .dl1 => "dl1" | .dl2 => "dl2" | .dl3 => "dl3" | .dl4 => "dl4"
  | .dr5 => "dr5" | .dr6 => "dr6" | .dr7 => "dr7" | .dr8 => "dr8"

/-- The `Table` model of models/table.py: 15 position columns,
8 paid flags, 8 deadlines, plus identification and status columns. -/
structure Table where
  id : Nat
  level : Nat
  parent_id : Option Nat
  split_side : Option String
  created_at : Nat
  closed_at : Option Nat
  status : String
  isactive : Bool
  gifts_received : Nat
  -- source column is named `rec`; that name collides with the
  -- structure recursor in Lean, so it is embedded as `recv`
  recv : Option Nat
  crl : Option Nat
  crr : Option Nat
  stl1 : Option Nat
  stl2 : Option Nat
  str3 : Option Nat
  str4 : Option Nat
  dl1 : Option Nat
  dl2 : Option Nat
  dl3 : Option Nat
  dl4 : Option Nat
  dr5 : Option Nat
  dr6 : Option Nat
  dr7 : Option Nat
  dr8 : Option Nat
  dl1_pay : Bool
  dl2_pay : Bool
  dl3_pay : Bool
  dl4_pay : Bool
  dr5_pay : Bool
  dr6_pay : Bool
  dr7_pay : Bool
  dr8_pay : Bool
  dl1_deadline : Option Nat
  dl2_deadline : Option Nat
  dl3_deadline : Option Nat
  dl4_deadline : Option Nat
  dr5_deadline : Option Nat
  dr6_deadline : Option Nat
  dr7_deadline : Option Nat
  dr8_deadline : Option Nat
deriving Repr, DecidableEq

/-- `getattr(table, slot)` for a donor slot. -/
def occ (t : Table) : DSlot → Option Nat
  | .dl1 => t.dl1 | .dl2 => t.dl2 | .dl3 => t.dl3 | .dl4 => t.dl4
  | .dr5 => t.dr5 | .dr6 => t.dr6 | .dr7 => t.dr7 | .dr8 => t.dr8

/-- `getattr(table, f"slot_pay")` for a donor slot. -/
def pay (t : Table) : DSlot → Bool
  | .dl1 => t.dl1_pay | .dl2 => t.dl2_pay | .dl3 => t.dl3_pay | .dl4 => t.dl4_pay
  | .dr5 => t.dr5_pay | .dr6 => t.dr6_pay | .dr7 => t.dr7_pay | .dr8 => t.dr8_pay

/-- `getattr(table, f"slot_deadline")` for a donor slot. -/
def ddl (t : Table) : DSlot → Option Nat
  | .dl1 => t.dl1_deadline | .dl2 => t.dl2_deadline
  | .dl3 => t.dl3_deadline | .dl4 => t.dl4_deadline
  | .dr5 => t.dr5_deadline | .dr6 => t.dr6_deadline
  | .dr7 => t.dr7_deadline | .dr8 => t.dr8_deadline

/-- `setattr(table, slot, v)` for a donor slot. -/
def setOcc (t : Table) (s : DSlot) (v : Option Nat) : Table :=
  match s with
  | .dl1 => { t with dl1 := v } | .dl2 => { t with dl2 := v }
  | .dl3 => { t with dl3 := v } | .dl4 => { t with dl4 := v }
  | .dr5 => { t with dr5 := v } | .dr6 => { t with dr6 := v }
  | .dr7 => { t with dr7 := v } | .dr8 => { t with dr8 := v }

/-- `setattr(table, f"slot_pay", v)` for a donor slot. -/
def setPay (t : Table) (s : DSlot) (v : Bool) : Table :=
  match s with
  | .dl1 => { t with dl1_pay := v } | .dl2 => { t with dl2_pay := v }
  | .dl3 => { t with dl3_pay := v } | .dl4 => { t with dl4_pay := v }
  | .dr5 => { t with dr5_pay := v } | .dr6 => { t with dr6_pay := v }
  | .dr7 => { t with dr7_pay := v } | .dr8 => { t with dr8_pay := v }

/-- `setattr(table, f"slot_deadline", v)` for a donor slot. -/
def setDdl (t : Table) (s : DSlot) (v : Option Nat) : Table :=
  match s with
  | .dl1 => { t with dl1_deadline := v } | .dl2 => { t with dl2_deadline := v }
  | .dl3 => { t with dl3_deadline := v } | .dl4 => { t with dl4_deadline := v }
  | .dr5 => { t with dr5_deadline := v } | .dr6 => { t with dr6_deadline := v }
  | .dr7 => { t with dr7_deadline := v } | .dr8 => { t with dr8_deadline := v }

/-- The left donor slots in source order. -/
def leftSlots : List DSlot := [.dl1, .dl2, .dl3, .dl4]

/-- The right donor slots in source order. -/
def rightSlots : List DSlot := [.dr5, .dr6, .dr7, .dr8]

/-- `donor_slots = ['dl1','dl2','dl3','dl4','dr5','dr6','dr7','dr8']`,
the iteration order used by table_service.py. -/
def donorSlots : List DSlot := leftSlots ++ rightSlots

/-- `Table.is_complete`: `gifts_received >= 8`. -/
def is_complete (t : Table) : Bool := 8 ≤ t.gifts_received

/-- `Table.left_donors`. -/
def left_donors (t : Table) : List (Option Nat) := [t.dl1, t.dl2, t.dl3, t.dl4]

/-- `Table.right_donors`. -/
def right_donors (t : Table) : List (Option Nat) := [t.dr5, t.dr6, t.dr7, t.dr8]

/-- `Table.left_payments`. -/
def left_payments (t : Table) : List Bool := [t.dl1_pay, t.dl2_pay, t.dl3_pay, t.dl4_pay]

/-- `Table.right_payments`. -/
def right_payments (t : Table) : List Bool := [t.dr5_pay, t.dr6_pay, t.dr7_pay, t.dr8_pay]

/-- `Table.is_left_full`: all left donor slots occupied. -/
def is_left_full (t : Table) : Bool := (left_donors t).all (fun o => o.isSome)

/-- `Table.is_right_full`: all right donor slots occupied. -/
def is_right_full (t : Table) : Bool := (right_donors t).all (fun o => o.isSome)

/-- `Table.is_left_paid`: all four left paid flags set. -/
def is_left_paid (t : Table) : Bool := (left_payments t).all id

/-- `Table.is_right_paid`: all four right paid flags set. -/
def is_right_paid (t : Table) : Bool := (right_payments t).all id

/-- `Table.can_split_left`. -/
def can_split_left (t : Table) : Bool := is_left_full t && is_left_paid t

/-- `Table.can_split_right`. -/
def can_split_right (t : Table) : Bool := is_right_full t && is_right_paid t

/-- `Table.empty_slots_left`. -/
def empty_slots_left (t : Table) : Nat := (left_donors t).countP (fun o => o.isNone)

/-- `Table.empty_slots_right`. -/
def empty_slots_right (t : Table) : Nat := (right_donors t).countP (fun o => o.isNone)

/-- `Table.empty_slots_total`. -/
def empty_slots_total (t : Table) : Nat := empty_slots_left t + empty_slots_right t

/-- `sum` of a Python bool: True counts as 1. -/
def b2n : Bool → Nat
  | true => 1
  | false => 0

/-- `Table.paid_count`: `sum(left_payments) + sum(right_payments)`. -/
def paid_count (t : Table) : Nat :=
  ((left_payments t).map b2n).sum + ((right_payments t).map b2n).sum

/-- `Table.get_first_empty_slot(prefer_left)`: first unoccupied donor
slot, scanning the preferred side first then the other side, each in
the fixed intra-side order. -/
def get_first_empty_slot (t : Table) (prefer_left : Bool) : Option DSlot :=
  (if prefer_left then leftSlots ++ rightSlots else rightSlots ++ leftSlots).find?
    (fun s => (occ t s).isNone)

/-- First unoccupied donor slot of one scan list (used to phrase the
side-choice rule at claim level). -/
def first_empty_in (t : Table) (l : List DSlot) : Option DSlot :=
  l.find? (fun s => (occ t s).isNone)

/-- The 15 position columns in the order used by
`TableService._is_user_on_table`. -/
def positions (t : Table) : List (Option Nat) :=
  [t.recv, t.crl, t.crr, t.stl1, t.stl2, t.str3, t.str4,
   t.dl1, t.dl2, t.dl3, t.dl4, t.dr5, t.dr6, t.dr7, t.dr8]

/-- `TableService._is_user_on_table`: `tid in positions`. -/
def is_user_on_table (t : Table) (tid : Nat) : Bool :=
  (positions t).contains (some tid)

/-- `TableService.is_user_on_level`: a level-scoped scan over all rows
for an active, non-closed table holding `tid` in any of the 15
position columns.  The session is modelled as the list `db`. -/
def is_user_on_level (db : List Table) (tid : Nat) (level : Nat) : Bool :=
  db.any (fun t =>
    t.level == level && t.isactive && t.status != CLOSED
      && (positions t).contains (some tid))

/-- `table.gifts_received += 1`. -/
def addGift (t : Table) : Table := { t with gifts_received := t.gifts_received + 1 }

/-- `table.status = st`. -/
def setStatus (t : Table) (st : String) : Table := { t with status := st }

/-- The closing mutation of `split_table`: status CLOSED, inactive,
`closed_at = now`. -/
def closeTable (t : Table) (now : Nat) : Table :=
  { t with status := CLOSED, isactive := false, closed_at := some now }

/-- Result of `TableService.join_table`: `(success, reason, slot_name)`
plus the mutated row. -/
structure JoinRes where
  ok : Bool
  reason : String
  slot : Option DSlot
  table : Table
deriving Repr, DecidableEq

/-- `TableService.join_table(table_id, user_tid)`.  The `get_by_id`
fetch is modelled by passing the row `t`; `db` models the session for
the level-uniqueness re-check; `now` models `int(time.time())`. -/
def join_table (db : List Table) (t : Table) (user_tid : Nat) (now : Nat) : JoinRes :=
  if !t.isactive then ⟨false, "TABLE_CLOSED", none, t⟩
  else if t.status == CLOSED then ⟨false, "TABLE_CLOSED", none, t⟩
  else if is_user_on_table t user_tid then ⟨false, "ALREADY_ON_TABLE", none, t⟩
  else if is_user_on_level db user_tid t.level then
    ⟨false, "USER_ALREADY_ON_LEVEL", none, t⟩
  else
    let prefer_left : Bool := decide (empty_slots_left t ≤ empty_slots_right t)
    let slot :=
      match get_first_empty_slot t prefer_left with
      | some s => some s
      | none => get_first_empty_slot t (!prefer_left)
    match slot with
    | none => ⟨false, "NO_SLOTS", none, t⟩
    | some s =>
      let deadline := now + PAYMENT_TIMEOUT
      let t1 := setPay (setDdl (setOcc t s (some user_tid)) s (some deadline)) s false
      let t2 := if t1.status == WAITING then setStatus t1 ACTIVE else t1
      ⟨true, "SUCCESS", some s, t2⟩

/-- Result of `TableService.leave_table`: `(success, reason)` plus the
mutated row. -/
structure LeaveRes where
  ok : Bool
  reason : String
  table : Table
deriving Repr, DecidableEq

/-- `TableService.leave_table(table_id, user_tid)`: scan the donor
slots in source order for the first one occupied by `user_tid`;
reject if it is already paid, otherwise clear occupant, deadline and
paid flag. -/
def leave_table (t : Table) (user_tid : Nat) : LeaveRes :=
  match donorSlots.find? (fun s => occ t s == some user_tid) with
  | none => ⟨false, "NOT_A_DONOR", t⟩
  | some s =>
    if pay t s then ⟨false, "ALREADY_PAID", t⟩
    else
      let t1 := setPay (setDdl (setOcc t s none) s none) s false
      ⟨true, "LEFT_" ++ (slotName s).toUpper, t1⟩

/-- Result of `TableService.confirm_payment`:
`(success, message, split_ready_side)` plus the mutated row. -/
structure ConfirmRes where
  ok : Bool
  msg : String
  side : Option String
  table : Table
deriving Repr, DecidableEq

/-- `TableService.confirm_payment(table_id, donor_tid)`: find the
donor slot occupied by `donor_tid` (first in source order); reject if
absent or already paid; otherwise set the paid flag, increment
`gifts_received`, and report which side (if any) is now split-ready,
checking left before right. -/
def confirm_payment (t : Table) (donor_tid : Nat) : ConfirmRes :=
  match donorSlots.find? (fun s => occ t s == some donor_tid) with
  | none => ⟨false, "DONOR_NOT_FOUND", none, t⟩
  | some s =>
    if pay t s then ⟨false, "ALREADY_CONFIRMED", none, t⟩
    else
      let t1 := setPay t s true
      let t2 := addGift t1
      let side :=
        if can_split_left t2 then some "left"
        else if can_split_right t2 then some "right"
        else none
      let msg := "GIFT_" ++ toString t2.gifts_received ++ "_OF_8" ++
        (match side with
         | some sd => "_READY_SPLIT_" ++ sd.toUpper
         | none => "")
      ⟨true, msg, side, t2⟩

/-- Result of `TableService.split_table`: `(success, reason, new_table)`
plus the mutated parent row. -/
structure SplitRes where
  ok : Bool
  reason : String
  child : Option Table
  parent : Table
deriving Repr, DecidableEq

/-- `TableService.split_table(table_id, side)`.  `new_id` models the
autoincrement id of the inserted child row and `now` models
`int(time.time())` (the child's `created_at` default and the parent's
`closed_at`). -/
def split_table (t : Table) (side : String) (new_id : Nat) (now : Nat) : SplitRes :=
  if side == "left" then
    if !can_split_left t then ⟨false, "LEFT_NOT_READY", none, t⟩
    else
      let new_table : Table :=
        { id := new_id, level := t.level, parent_id := some t.id,
          split_side := some side, created_at := now, closed_at := none,
          status := WAITING, isactive := true, gifts_received := 0,
          recv := t.crl, crl := t.stl1, crr := t.stl2,
          stl1 := t.dl1, stl2 := t.dl2, str3 := t.dl3, str4 := t.dl4,
          dl1 := none, dl2 := none, dl3 := none, dl4 := none,
          dr5 := none, dr6 := none, dr7 := none, dr8 := none,
          dl1_pay := false, dl2_pay := false, dl3_pay := false, dl4_pay := false,
          dr5_pay := false, dr6_pay := false, dr7_pay := false, dr8_pay := false,
          dl1_deadline := none, dl2_deadline := none,
          dl3_deadline := none, dl4_deadline := none,
          dr5_deadline := none, dr6_deadline := none,
          dr7_deadline := none, dr8_deadline := none }
      let t1 :=
        { t with
          crl := none, stl1 := none, stl2 := none,
          dl1 := none, dl2 := none, dl3 := none, dl4 := none,
          dl1_pay := false, dl2_pay := false, dl3_pay := false, dl4_pay := false,
          dl1_deadline := none, dl2_deadline := none,
          dl3_deadline := none, dl4_deadline := none }
      let t2 := if is_complete t1 then closeTable t1 now else t1
      ⟨true, "SPLIT_" ++ side.toUpper ++ "_TABLE_" ++ toString new_id, some new_table, t2⟩
  else if side == "right" then
    if !can_split_right t then ⟨false, "RIGHT_NOT_READY", none, t⟩
    else
      let new_table : Table :=
        { id := new_id, level := t.level, parent_id := some t.id,
          split_side := some side, created_at := now, closed_at := none,
          status := WAITING, isactive := true, gifts_received := 0,
          recv := t.crr, crl := t.str3, crr := t.str4,
          stl1 := t.dr5, stl2 := t.dr6, str3 := t.dr7, str4 := t.dr8,
          dl1 := none, dl2 := none, dl3 := none, dl4 := none,
          dr5 := none, dr6 := none, dr7 := none, dr8 := none,
          dl1_pay := false, dl2_pay := false, dl3_pay := false, dl4_pay := false,
          dr5_pay := false, dr6_pay := false, dr7_pay := false, dr8_pay := false,
          dl1_deadline := none, dl2_deadline := none,
          dl3_deadline := none, dl4_deadline := none,
          dr5_deadline := none, dr6_deadline := none,
          dr7_deadline := none, dr8_deadline := none }
      let t1 :=
        { t with
          crr := none, str3 := none, str4 := none,
          dr5 := none, dr6 := none, dr7 := none, dr8 := none,
          dr5_pay := false, dr6_pay := false, dr7_pay := false, dr8_pay := false,
          dr5_deadline := none, dr6_deadline := none,
          dr7_deadline := none, dr8_deadline := none }
      let t2 := if is_complete t1 then closeTable t1 now else t1
      ⟨true, "SPLIT_" ++ side.toUpper ++ "_TABLE_" ++ toString new_id, some new_table, t2⟩
  else ⟨false, "INVALID_SIDE", none, t⟩

/-- Result of `TableService.kick_donor`: `(success, kicked_tid)` plus
the mutated row. -/
structure KickRes where
  ok : Bool
  tid : Nat
  table : Table
deriving Repr, DecidableEq

/-- `TableService.kick_donor(table_id, slot)`: clear the slot, its
deadline and paid flag (the optional ban on the kicked user lives in
the user service). -/
def kick_donor (t : Table) (s : DSlot) : KickRes :=
  match occ t s with
  | none => ⟨false, 0, t⟩
  | some tid =>
    let t1 := setPay (setDdl (setOcc t s none) s none) s false
    ⟨true, tid, t1⟩

/-- `TableService.get_expired_donors(table_id)`: the donor slots with
an occupant, a deadline in the past and `paid=false`. -/
def get_expired_donors (t : Table) (now : Nat) : List (DSlot × Nat) :=
  donorSlots.filterMap (fun s =>
    match occ t s, ddl t s with
    | some tid, some deadline =>
      if !pay t s && deadline < now then some (s, tid) else none
    | _, _ => none)

/-- `TableService.create_table`: a fresh board with the creator as
Receiver, every other position empty. -/
def create_table (new_id level creator_tid : Nat) (parent_id : Option Nat)
    (side : Option String) (now : Nat) : Table :=
  { id := new_id, level := level, parent_id := parent_id,
    split_side := side, created_at := now, closed_at := none,
    status := WAITING, isactive := true, gifts_received := 0,
    recv := some creator_tid, crl := none, crr := none,
    stl1 := none, stl2 := none, str3 := none, str4 := none,
    dl1 := none, dl2 := none, dl3 := none, dl4 := none,
    dr5 := none, dr6 := none, dr7 := none, dr8 := none,
    dl1_pay := false, dl2_pay := false, dl3_pay := false, dl4_pay := false,
    dr5_pay := false, dr6_pay := false, dr7_pay := false, dr8_pay := false,
    dl1_deadline := none, dl2_deadline := none,
    dl3_deadline := none, dl4_deadline := none,
    dr5_deadline := none, dr6_deadline := none,
    dr7_deadline := none, dr8_deadline := none }

/-- `BAN_DURATION_FIRST = 72 * 60 * 60` from models/user.py. -/
def BAN_DURATION_FIRST : Nat := 72 * 60 * 60

/-- `BAN_DURATION_SECOND = 144 * 60 * 60` from models/user.py. -/
def BAN_DURATION_SECOND : Nat := 144 * 60 * 60

/-- `BAN_DURATION_THIRD = 288 * 60 * 60` from models/user.py. -/
def BAN_DURATION_THIRD : Nat := 288 * 60 * 60

/-- The `User` model of models/user.py (text columns `username`,
`fullname`, `wallet_address`, `reflink`, used only by the excluded
presentation layer, are omitted). -/
structure User where
  tid : Nat
  isref : Option Nat
  refscount : Nat
  regtime : Option Nat
  isactive : Bool
  isadmin : Bool
  isblocked : Bool
  ban_until : Option Nat
  votes : Nat
  global_activity_until : Option Nat
  heartbeat_until : Option Nat
deriving Repr, DecidableEq

/-- `User.is_banned`: an unexpired `ban_until`.  `now` models
`int(time.time())`. -/
def is_banned (u : User) (now : Nat) : Bool :=
  match u.ban_until with
  | none => false
  | some b => now < b

/-- `UserService.get_by_tid`: select by the unique `tid` column,
modelled as the first match in the user list. -/
def get_by_tid (users : List User) (tid : Nat) : Option User :=
  users.find? (fun u => u.tid == tid)

/-- `UserService.apply_ban(tid)`: increment `votes` and set
`ban_until` with the escalating duration 72h / 144h / 288h+.
Returns the ban length in hours together with the updated user. -/
def apply_ban (u : User) (now : Nat) : Nat × User :=
  let new_votes := u.votes + 1
  let duration :=
    if new_votes == 1 then BAN_DURATION_FIRST
    else if new_votes == 2 then BAN_DURATION_SECOND
    else BAN_DURATION_THIRD
  (duration / 3600, { u with votes := new_votes, ban_until := some (now + duration) })

/-- `UserService.pay_indulgence(tid)`: the UPDATE sets only
`ban_until = None`; the `votes` counter is deliberately untouched. -/
def pay_indulgence (u : User) : User :=
  { u with ban_until := none }

/-- `UserService.get_upline(tid, depth)`: walk `isref` pointers
upward, nearest mentor first, stopping at a missing user, an unset
mentor, a dangling mentor reference, or after `depth` steps. -/
def get_upline_from : List User → Nat → Nat → List User
  | _, _, 0 => []
  | users, current, fuel + 1 =>
    match get_by_tid users current with
    | none => []
    | some u =>
      match u.isref with
      | none => []
      | some r =>
        match get_by_tid users r with
        | none => []
        | some referrer => referrer :: get_upline_from users referrer.tid fuel

/-- `UserService.get_upline` with its default `depth=100`. -/
def get_upline (users : List User) (tid : Nat) (depth : Nat) : List User :=
  get_upline_from users tid depth

/-- `TableService.can_user_join(tid, level)`: the precondition checks
of placement (unknown user, blocked, banned, already on the level). -/
def can_user_join (users : List User) (db : List Table) (tid level now : Nat) :
    Bool × String :=
  match get_by_tid users tid with
  | none => (false, "USER_NOT_FOUND")
  | some user =>
    if user.isblocked then (false, "USER_BLOCKED")
    else if is_banned user now then (false, "USER_BLOCKED")
    else if is_user_on_level db tid level then (false, "USER_ALREADY_ON_LEVEL")
    else (true, "OK")

/-- `TableService.find_receiver_table(receiver_tid, level)`: the
active (waiting or running) table whose Receiver is `receiver_tid` at
`level`.  `scalar_one_or_none` assumes at most one such row; the model
takes the first match in row order. -/
def find_receiver_table (db : List Table) (receiver_tid level : Nat) : Option Table :=
  (db.filter (fun t =>
    t.recv == some receiver_tid && t.level == level && t.isactive
      && (t.status == WAITING || t.status == ACTIVE))).head?

/-- The WHERE clause of `TableService._find_any_open_table`: active
waiting/running table at `level` with at least one NULL donor column. -/
def spill_candidate (level : Nat) (t : Table) : Bool :=
  t.level == level && t.isactive
    && (t.status == WAITING || t.status == ACTIVE)
    && donorSlots.any (fun s => (occ t s).isNone)

/-- The ORDER BY of `_find_any_open_table`: `b` strictly precedes `a`
under `gifts_received DESC, created_at ASC`. -/
def spill_better (a b : Table) : Bool :=
  a.gifts_received < b.gifts_received
    || (b.gifts_received == a.gifts_received && b.created_at < a.created_at)

/-- One step of the LIMIT-1 selection: keep the better row, the
earlier one on full ties. -/
def spill_step (acc : Option Table) (t : Table) : Option Table :=
  match acc with
  | none => some t
  | some a => if spill_better a t then some t else some a

/-- `TableService._find_any_open_table(level)`: global spillover
query, `ORDER BY gifts_received DESC, created_at ASC LIMIT 1`,
modelled as a fold selecting the first best row. -/
def find_any_open_table (db : List Table) (level : Nat) : Option Table :=
  (db.filter (spill_candidate level)).foldl spill_step none

/-- One mentor's contribution in the upline walk: their active
receiver table at `level` when it has an empty donor slot. -/
def mentor_open (db : List Table) (level : Nat) (m : User) : Option Table :=
  match find_receiver_table db m.tid level with
  | some t => if 0 < empty_slots_total t then some t else none
  | none => none

/-- The mentor loop of `TableService.find_table_for_user`: for each
mentor in upline order, return their receiver table if it exists and
has an empty donor slot, tagged with the mentor's tid. -/
def mentor_scan (db : List Table) (level : Nat) :
    List User → Option (Table × String)
  | [] => none
  | m :: rest =>
    match find_receiver_table db m.tid level with
    | some t =>
      if 0 < empty_slots_total t then some (t, "MENTOR_" ++ toString m.tid)
      else mentor_scan db level rest
    | none => mentor_scan db level rest

/-- `TableService.find_table_for_user(user_tid, level)`: precondition
checks, then the mentor-chain walk (depth 100), then global
spillover. -/
def find_table_for_user (users : List User) (db : List Table)
    (user_tid level now : Nat) : Option Table × String :=
  match can_user_join users db user_tid level now with
  | (false, reason) => (none, reason)
  | (true, _) =>
    let upline := get_upline users user_tid 100
    match mentor_scan db level upline with
    | some (t, reason) => (some t, reason)
    | none =>
      match find_any_open_table db level with
      | some t => (some t, "GLOBAL_SPILLOVER")
      | none => (none, "NO_TABLES_AVAILABLE")

/-! Concrete boards used to evaluate the operations at explicit
inputs.  `baseBoard` is a genesis board (`create_genesis_table`) with
Receiver 100. -/

/-- A fresh genesis board at level 1, Receiver 100. -/
def baseBoard : Table := create_table 1 1 100 none none 0

/-- Board whose left side is full and fully paid (4 gifts received):
reachable by four joins and four confirms on `baseBoard`. -/
def leftPaidBoard : Table :=
  { baseBoard with
    status := ACTIVE, gifts_received := 4,
    crl := some 5, stl1 := some 6, stl2 := some 7,
    dl1 := some 11, dl2 := some 12, dl3 := some 13, dl4 := some 14,
    dl1_pay := true, dl2_pay := true, dl3_pay := true, dl4_pay := true,
    dl1_deadline := some 900, dl2_deadline := some 901,
    dl3_deadline := some 902, dl4_deadline := some 903 }

/-- Board reached from `baseBoard` by eight joins (tids 11..18) and
eight confirms, with no split ever performed: all 8 donor slots paid
and `gifts_received = 8`. -/
def fullPaidBoard : Table :=
  let t1 := [11, 12, 13, 14, 15, 16, 17, 18].foldl
    (fun t uid => (join_table [] t uid 0).table) baseBoard
  [11, 12, 13, 14, 15, 16, 17, 18].foldl
    (fun t uid => (confirm_payment t uid).table) t1

/-- A closed board still holding an unpaid donor (tid 77) in `dr5`:
reachable by filling and confirming `dl1..dl4` and `dr5`, splitting
left, refilling and confirming `dl1..dl4`, then splitting left again
(the second split closes the board since `gifts_received = 8`, and the
unpaid `dr5` obligation survives the closure untouched). -/
def closedBoard : Table :=
  { baseBoard with
    status := CLOSED, isactive := false, closed_at := some 5000,
    gifts_received := 8,
    crr := some 3, str3 := some 4, str4 := some 9,
    dr5 := some 77, dr5_deadline := some 4000 }

/-- A closed board whose right side is still full and paid: the left
split of `fullPaidBoard` closes the parent (gifts_received = 8) while
leaving the paid right donors 15..18 in place, so the closed board
still satisfies `can_split_right`. -/
def closedSplitReadyBoard : Table :=
  (split_table fullPaidBoard "left" 2 99).parent

/-- Board where confirming `dl4` (tid 14) makes the left side
split-ready while the right side is already split-ready: left donors
11..14 with 11..13 paid, right donors 15..18 all paid. -/
def bothReadyBoard : Table :=
  { baseBoard with
    status := ACTIVE, gifts_received := 7,
    dl1 := some 11, dl2 := some 12, dl3 := some 13, dl4 := some 14,
    dr5 := some 15, dr6 := some 16, dr7 := some 17, dr8 := some 18,
    dl1_pay := true, dl2_pay := true, dl3_pay := true,
    dr5_pay := true, dr6_pay := true, dr7_pay := true, dr8_pay := true,
    dl4_deadline := some 800 }

/-- Board with one unpaid donor (tid 21 in `dl2`) and one paid donor
(tid 22 in `dl3`). -/
def mixedBoard : Table :=
  { baseBoard with
    status := ACTIVE, gifts_received := 1,
    dl2 := some 21, dl3 := some 22,
    dl3_pay := true,
    dl2_deadline := some 700, dl3_deadline := some 701 }

/-- A split-ready board for the split witness: left side full and
paid, Creator/Builders occupied, right side partially filled. -/
def splitReadyBoard : Table :=
  { leftPaidBoard with
    crr := some 8, str3 := some 9, str4 := some 10,
    dr5 := some 15, dr5_deadline := some 950 }

/-- Two users for the placement witness: tid 1 is referred by tid 2. -/
def mentee : User :=
  { tid := 1, isref := some 2, refscount := 0, regtime := some 10,
    isactive := true, isadmin := false, isblocked := false,
    ban_until := none, votes := 0,
    global_activity_until := none, heartbeat_until := some 999 }

/-- The mentor user (tid 2, no referrer). -/
def mentorUser : User :=
  { tid := 2, isref := none, refscount := 1, regtime := some 5,
    isactive := true, isadmin := false, isblocked := false,
    ban_until := none, votes := 0,
    global_activity_until := none, heartbeat_until := some 999 }

/-- An open board whose Receiver is the mentor (tid 2). -/
def mentorBoard : Table :=
  { baseBoard with id := 4, recv := some 2 }

/-- A banned user with two prior violations, for the indulgence
facts. -/
def bannedUser : User :=
  { tid := 50, isref := none, refscount := 0, regtime := some 1,
    isactive := true, isadmin := false, isblocked := false,
    ban_until := some 100000, votes := 2,
    global_activity_until := none, heartbeat_until := none }

/-- The spec's §3 counter invariant: `gifts_received` equals the
number of `paid=true` donor slots. -/
def gifts_inv (t : Table) : Prop := t.gifts_received = paid_count t

/-- Well-formedness of reachable boards: an unoccupied donor slot
never carries a stale `paid=true` flag. -/
def empty_unpaid (t : Table) : Prop :=
  ∀ s, occ t s = none → pay t s = false

instance (t : Table) : Decidable (gifts_inv t) := by
  unfold gifts_inv; infer_instance

instance (t : Table) : Decidable (empty_unpaid t) := by
  unfold empty_unpaid; infer_instance

/-! Helper lemmas: the donor-slot setters commute with the accessors
and leave the aggregate columns untouched. -/

theorem occ_setPay (t : Table) (s' : DSlot) (v : Bool) (s : DSlot) :
    occ (setPay t s' v) s = occ t s := by
  cases s' <;> cases s <;> rfl

theorem occ_setDdl (t : Table) (s' : DSlot) (v : Option Nat) (s : DSlot) :
    occ (setDdl t s' v) s = occ t s := by
  cases s' <;> cases s <;> rfl

theorem pay_setOcc (t : Table) (s' : DSlot) (v : Option Nat) (s : DSlot) :
    pay (setOcc t s' v) s = pay t s := by
  cases s' <;> cases s <;> rfl

theorem pay_setDdl (t : Table) (s' : DSlot) (v : Option Nat) (s : DSlot) :
    pay (setDdl t s' v) s = pay t s := by
  cases s' <;> cases s <;> rfl

theorem ddl_setOcc (t : Table) (s' : DSlot) (v : Option Nat) (s : DSlot) :
    ddl (setOcc t s' v) s = ddl t s := by
  cases s' <;> cases s <;> rfl

theorem ddl_setPay (t : Table) (s' : DSlot) (v : Bool) (s : DSlot) :
    ddl (setPay t s' v) s = ddl t s := by
  cases s' <;> cases s <;> rfl

theorem occ_setOcc (t : Table) (s' : DSlot) (v : Option Nat) (s : DSlot) :
    occ (setOcc t s' v) s = if s = s' then v else occ t s := by
  cases s' <;> cases s <;> simp [occ, setOcc]

theorem pay_setPay (t : Table) (s' : DSlot) (v : Bool) (s : DSlot) :
    pay (setPay t s' v) s = if s = s' then v else pay t s := by
  cases s' <;> cases s <;> simp [pay, setPay]

theorem ddl_setDdl (t : Table) (s' : DSlot) (v : Option Nat) (s : DSlot) :
    ddl (setDdl t s' v) s = if s = s' then v else ddl t s := by
  cases s' <;> cases s <;> simp [ddl, setDdl]

theorem gifts_setOcc (t : Table) (s : DSlot) (v : Option Nat) :
    (setOcc t s v).gifts_received = t.gifts_received := by
  cases s <;> rfl

theorem gifts_setPay (t : Table) (s : DSlot) (v : Bool) :
    (setPay t s v).gifts_received = t.gifts_received := by
  cases s <;> rfl

theorem gifts_setDdl (t : Table) (s : DSlot) (v : Option Nat) :
    (setDdl t s v).gifts_received = t.gifts_received := by
  cases s <;> rfl

theorem status_setOcc (t : Table) (s : DSlot) (v : Option Nat) :
    (setOcc t s v).status = t.status := by
  cases s <;> rfl

theorem status_setPay (t : Table) (s : DSlot) (v : Bool) :
    (setPay t s v).status = t.status := by
  cases s <;> rfl

theorem status_setDdl (t : Table) (s : DSlot) (v : Option Nat) :
    (setDdl t s v).status = t.status := by
  cases s <;> rfl

theorem paid_count_setOcc (t : Table) (s : DSlot) (v : Option Nat) :
    paid_count (setOcc t s v) = paid_count t := by
  cases s <;> rfl

theorem paid_count_setDdl (t : Table) (s : DSlot) (v : Option Nat) :
    paid_count (setDdl t s v) = paid_count t := by
  cases s <;> rfl

theorem paid_count_setPay_true (t : Table) (s : DSlot) (h : pay t s = false) :
    paid_count (setPay t s true) = paid_count t + 1 := by
  cases s <;> simp [pay] at h <;>
    simp [paid_count, setPay, left_payments, right_payments, h, b2n] <;> omega

theorem paid_count_setPay_false (t : Table) (s : DSlot) (h : pay t s = false) :
    paid_count (setPay t s false) = paid_count t := by
  cases s <;> simp [pay] at h <;>
    simp [paid_count, setPay, left_payments, right_payments, h, b2n]

/-- Every donor slot is in the scan list. -/
theorem mem_donorSlots (s : DSlot) : s ∈ donorSlots := by
  cases s <;> decide

theorem gifts_addGift (t : Table) :
    (addGift t).gifts_received = t.gifts_received + 1 := rfl

theorem paid_count_addGift (t : Table) : paid_count (addGift t) = paid_count t := rfl

theorem paid_count_setStatus (t : Table) (st : String) :
    paid_count (setStatus t st) = paid_count t := rfl

theorem gifts_setStatus (t : Table) (st : String) :
    (setStatus t st).gifts_received = t.gifts_received := rfl

theorem paid_count_closeTable (t : Table) (now : Nat) :
    paid_count (closeTable t now) = paid_count t := rfl

theorem gifts_closeTable (t : Table) (now : Nat) :
    (closeTable t now).gifts_received = t.gifts_received := rfl

theorem status_closeTable (t : Table) (now : Nat) :
    (closeTable t now).status = CLOSED := rfl

theorem isactive_closeTable (t : Table) (now : Nat) :
    (closeTable t now).isactive = false := rfl

theorem status_addGift (t : Table) : (addGift t).status = t.status := rfl

theorem status_setStatus (t : Table) (st : String) :
    (setStatus t st).status = st := rfl

theorem occ_setStatus (t : Table) (st : String) (s : DSlot) :
    occ (setStatus t st) s = occ t s := by cases s <;> rfl

theorem pay_setStatus (t : Table) (st : String) (s : DSlot) :
    pay (setStatus t st) s = pay t s := by cases s <;> rfl

theorem ddl_setStatus (t : Table) (st : String) (s : DSlot) :
    ddl (setStatus t st) s = ddl t s := by cases s <;> rfl

theorem left_donors_eq (t : Table) : left_donors t = leftSlots.map (occ t) := rfl

theorem right_donors_eq (t : Table) : right_donors t = rightSlots.map (occ t) := rfl

theorem empty_slots_left_eq (t : Table) :
    empty_slots_left t = leftSlots.countP (fun s => (occ t s).isNone) := by
  unfold empty_slots_left
  rw [left_donors_eq, List.countP_map]
  rfl

theorem empty_slots_right_eq (t : Table) :
    empty_slots_right t = rightSlots.countP (fun s => (occ t s).isNone) := by
  unfold empty_slots_right
  rw [right_donors_eq, List.countP_map]
  rfl

/-- The preferred-side-first scan is the `Option.or` of the two
per-side scans (left-first order). -/
theorem gfes_true (t : Table) :
    get_first_empty_slot t true
      = (first_empty_in t leftSlots).or (first_empty_in t rightSlots) := by
  unfold get_first_empty_slot first_empty_in
  simp [List.find?_append]

/-- The preferred-side-first scan, right-first order. -/
theorem gfes_false (t : Table) :
    get_first_empty_slot t false
      = (first_empty_in t rightSlots).or (first_empty_in t leftSlots) := by
  unfold get_first_empty_slot first_empty_in
  simp [List.find?_append]

/-- A failed whole-board scan means no donor slot is empty. -/
theorem gfes_none (t : Table) (b : Bool) (h : get_first_empty_slot t b = none) :
    empty_slots_total t = 0 := by
  unfold get_first_empty_slot at h
  have hall : ∀ s : DSlot, ¬ ((occ t s).isNone = true) := by
    intro s
    rw [List.find?_eq_none] at h
    refine h s ?_
    cases b
    · cases s <;> decide
    · cases s <;> decide
  have h1 : empty_slots_left t = 0 := by
    rw [empty_slots_left_eq, List.countP_eq_zero]
    intro s _
    exact hall s
  have h2 : empty_slots_right t = 0 := by
    rw [empty_slots_right_eq, List.countP_eq_zero]
    intro s _
    exact hall s
  unfold empty_slots_total
  omega

theorem first_empty_left_isSome (t : Table) (h : 0 < empty_slots_left t) :
    ∃ sl, first_empty_in t leftSlots = some sl := by
  rw [empty_slots_left_eq, List.countP_pos_iff] at h
  rw [← Option.isSome_iff_exists, first_empty_in, List.find?_isSome]
  exact h

theorem first_empty_right_isSome (t : Table) (h : 0 < empty_slots_right t) :
    ∃ sl, first_empty_in t rightSlots = some sl := by
  rw [empty_slots_right_eq, List.countP_pos_iff] at h
  rw [← Option.isSome_iff_exists, first_empty_in, List.find?_isSome]
  exact h

theorem first_empty_left_none (t : Table) (h : empty_slots_left t = 0) :
    first_empty_in t leftSlots = none := by
  rw [empty_slots_left_eq, List.countP_eq_zero] at h
  rw [first_empty_in, List.find?_eq_none]
  exact h

theorem first_empty_right_none (t : Table) (h : empty_slots_right t = 0) :
    first_empty_in t rightSlots = none := by
  rw [empty_slots_right_eq, List.countP_eq_zero] at h
  rw [first_empty_in, List.find?_eq_none]
  exact h

/-- A slot returned by `get_first_empty_slot` is unoccupied. -/
theorem first_empty_isNone (t : Table) (b : Bool) (s : DSlot)
    (h : get_first_empty_slot t b = some s) : occ t s = none := by
  unfold get_first_empty_slot at h
  have := List.find?_some h
  simpa [Option.isNone_iff_eq_none] using this

/-- A slot listed by `get_expired_donors` is occupied by the listed
tid and unpaid. -/
theorem expired_unpaid (t : Table) (now : Nat) (s : DSlot) (tid : Nat)
    (h : (s, tid) ∈ get_expired_donors t now) :
    occ t s = some tid ∧ pay t s = false := by
  unfold get_expired_donors at h
  rw [List.mem_filterMap] at h
  obtain ⟨a, _, ha⟩ := h
  cases ho : occ t a <;> rw [ho] at ha
  · simp at ha
  · cases hd : ddl t a <;> rw [hd] at ha
    · simp at ha
    · rename_i x d
      dsimp only at ha
      by_cases hc : (!pay t a && decide (d < now)) = true
      · rw [if_pos hc] at ha
        obtain ⟨h1, h2⟩ := Prod.mk.injEq .. ▸ Option.some.inj ha
        subst h1; subst h2
        refine ⟨ho, ?_⟩
        rcases Bool.and_eq_true .. |>.mp hc with ⟨hp, _⟩
        simpa using hp
      · rw [if_neg hc] at ha
        simp at ha

/-- Clearing or claiming an unpaid donor slot (occupant and deadline
overwritten, paid flag set to false) preserves the counter
invariant. -/
theorem gifts_inv_overwrite_unpaid (t : Table) (s : DSlot) (v : Option Nat)
    (d : Option Nat) (hpay : pay t s = false) (hinv : gifts_inv t) :
    gifts_inv (setPay (setDdl (setOcc t s v) s d) s false) := by
  unfold gifts_inv at *
  rw [gifts_setPay, gifts_setDdl, gifts_setOcc]
  rw [paid_count_setPay_false, paid_count_setDdl, paid_count_setOcc]
  · exact hinv
  · rw [pay_setDdl, pay_setOcc]; exact hpay

theorem gifts_inv_setStatus (t : Table) (st : String) :
    gifts_inv (setStatus t st) ↔ gifts_inv t := Iff.rfl

/-- The four left paid flags of a split-ready left side. -/
theorem can_split_left_flags (t : Table) (h : can_split_left t = true) :
    t.dl1_pay = true ∧ t.dl2_pay = true ∧ t.dl3_pay = true ∧ t.dl4_pay = true := by
  simp [can_split_left, is_left_paid, left_payments] at h
  tauto

/-- The four right paid flags of a split-ready right side. -/
theorem can_split_right_flags (t : Table) (h : can_split_right t = true) :
    t.dr5_pay = true ∧ t.dr6_pay = true ∧ t.dr7_pay = true ∧ t.dr8_pay = true := by
  simp [can_split_right, is_right_paid, right_payments] at h
  tauto

/-- With at most one donor slot per user, the donor scan finds
exactly the occupied slot. -/
theorem find_donor_unique (t : Table) (tid : Nat) (s : DSlot)
    (huniq : ∀ s1 s2, occ t s1 = some tid → occ t s2 = some tid → s1 = s2)
    (hs : occ t s = some tid) :
    donorSlots.find? (fun s' => occ t s' == some tid) = some s := by
  have hfind : (donorSlots.find? (fun s' => occ t s' == some tid)).isSome := by
    rw [List.find?_isSome]
    exact ⟨s, mem_donorSlots s, by simp [hs]⟩
  obtain ⟨s1, hs1⟩ := Option.isSome_iff_exists.mp hfind
  have h1 : occ t s1 = some tid := by simpa using List.find?_some hs1
  rw [hs1, huniq s1 s h1 hs]

/-- A mentor with no open receiver table is skipped by the scan. -/
theorem mentor_scan_cons_none (db : List Table) (level : Nat) (m : User)
    (rest : List User) (h : mentor_open db level m = none) :
    mentor_scan db level (m :: rest) = mentor_scan db level rest := by
  unfold mentor_open at h
  cases hf : find_receiver_table db m.tid level <;> rw [hf] at h <;> dsimp only at h
  · simp only [mentor_scan, hf]
  · rename_i t
    have he : ¬ 0 < empty_slots_total t := by
      intro hc
      rw [if_pos hc] at h
      simp at h
    simp only [mentor_scan, hf]
    rw [if_neg he]

/-- A prefix of skipped mentors does not affect the scan. -/
theorem mentor_scan_append_none (db : List Table) (level : Nat)
    (pre l : List User) (h : ∀ m ∈ pre, mentor_open db level m = none) :
    mentor_scan db level (pre ++ l) = mentor_scan db level l := by
  induction pre with
  | nil => rfl
  | cons m pre ih =>
    rw [List.cons_append,
      mentor_scan_cons_none db level m _ (h m (List.mem_cons_self m pre))]
    exact ih (fun m' hm' => h m' (List.mem_cons_of_mem m hm'))

/-- A mentor with an open receiver table stops the scan with their
table and tag. -/
theorem mentor_scan_cons_some (db : List Table) (level : Nat) (m : User)
    (rest : List User) (t : Table) (h : mentor_open db level m = some t) :
    mentor_scan db level (m :: rest) = some (t, "MENTOR_" ++ toString m.tid) := by
  unfold mentor_open at h
  cases hf : find_receiver_table db m.tid level <;> rw [hf] at h <;> dsimp only at h
  · simp at h
  · rename_i t'
    by_cases he : 0 < empty_slots_total t'
    · rw [if_pos he] at h
      injection h with h'
      subst h'
      simp only [mentor_scan, hf]
      rw [if_pos he]
    · rw [if_neg he] at h
      simp at h

/-- No row beats itself in the spillover order. -/
theorem spill_better_self (t : Table) : spill_better t t = false := by
  simp [spill_better]

/-- Arithmetic reading of a false `spill_better`. -/
theorem spill_better_false_iff (a b : Table) :
    spill_better a b = false ↔
      (b.gifts_received ≤ a.gifts_received ∧
        (b.gifts_received = a.gifts_received → a.created_at ≤ b.created_at)) := by
  rw [show (spill_better a b = false) = ¬ (spill_better a b = true) by simp]
  simp only [spill_better, Bool.or_eq_true, Bool.and_eq_true, decide_eq_true_eq,
    beq_iff_eq]
  omega

/-- Arithmetic reading of a true `spill_better`. -/
theorem spill_better_true_iff (a b : Table) :
    spill_better a b = true ↔
      (a.gifts_received < b.gifts_received ∨
        (b.gifts_received = a.gifts_received ∧ b.created_at < a.created_at)) := by
  simp only [spill_better, Bool.or_eq_true, Bool.and_eq_true, decide_eq_true_eq,
    beq_iff_eq]

/-- The selection fold returns an element that no input row beats. -/
theorem fold_best (l : List Table) : ∀ (acc : Option Table) (b : Table),
    l.foldl spill_step acc = some b →
    ((acc = some b ∨ b ∈ l) ∧
      (∀ a, acc = some a → spill_better b a = false) ∧
      (∀ x ∈ l, spill_better b x = false)) := by
  induction l with
  | nil =>
    intro acc b h
    refine ⟨Or.inl h, ?_, by simp⟩
    intro a ha
    rw [ha] at h
    injection h with h'
    rw [h']
    exact spill_better_self b
  | cons t l ih =>
    intro acc b h
    rw [List.foldl_cons] at h
    obtain ⟨hmem, hacc, hall⟩ := ih (spill_step acc t) b h
    cases acc with
    | none =>
      have hbt : spill_better b t = false := hacc t rfl
      refine ⟨?_, by simp, ?_⟩
      · cases hmem with
        | inl h' =>
          injection h' with h''
          exact Or.inr (h'' ▸ List.mem_cons_self t l)
        | inr h' => exact Or.inr (List.mem_cons_of_mem t h')
      · intro x hx
        cases List.mem_cons.mp hx with
        | inl h' => rw [h']; exact hbt
        | inr h' => exact hall x h'
    | some a =>
      by_cases hat : spill_better a t = true
      · have hstep : spill_step (some a) t = some t := by
          unfold spill_step
          dsimp only
          rw [if_pos hat]
        rw [hstep] at hmem hacc
        have hbt : spill_better b t = false := hacc t rfl
        have hba : spill_better b a = false := by
          rw [spill_better_false_iff] at hbt ⊢
          rw [spill_better_true_iff] at hat
          omega
        refine ⟨?_, ?_, ?_⟩
        · cases hmem with
          | inl h' =>
            injection h' with h''
            exact Or.inr (h'' ▸ List.mem_cons_self t l)
          | inr h' => exact Or.inr (List.mem_cons_of_mem t h')
        · intro a' ha'
          injection ha' with h''
          rw [← h'']
          exact hba
        · intro x hx
          cases List.mem_cons.mp hx with
          | inl h' => rw [h']; exact hbt
          | inr h' => exact hall x h'
      · have hstep : spill_step (some a) t = some a := by
          unfold spill_step
          dsimp only
          rw [if_neg hat]
        rw [hstep] at hmem hacc
        have hba : spill_better b a = false := hacc a rfl
        have hbt : spill_better b t = false := by
          rw [spill_better_false_iff] at hba ⊢
          have hat' : spill_better a t = false := eq_false_of_ne_true hat
          rw [spill_better_false_iff] at hat'
          omega
        refine ⟨?_, ?_, ?_⟩
        · cases hmem with
          | inl h' => exact Or.inl h'
          | inr h' => exact Or.inr (List.mem_cons_of_mem t h')
        · intro a' ha'
          injection ha' with h''
          rw [← h'']
          exact hba
        · intro x hx
          cases List.mem_cons.mp hx with
          | inl h' => rw [h']; exact hbt
          | inr h' => exact hall x h'

/-- The spillover query returns a candidate row that no other
candidate beats under `gifts_received DESC, created_at ASC`. -/
theorem find_any_open_spec (db : List Table) (level : Nat) (b : Table)
    (h : find_any_open_table db level = some b) :
    b ∈ db ∧ spill_candidate level b = true ∧
      ∀ x ∈ db, spill_candidate level x = true → spill_better b x = false := by
  unfold find_any_open_table at h
  obtain ⟨hmem, _, hall⟩ := fold_best _ none b h
  cases hmem with
  | inl h' => simp at h'
  | inr h' =>
    refine ⟨List.mem_of_mem_filter h', List.of_mem_filter h', ?_⟩
    intro x hx hcx
    exact hall x (List.mem_filter.mpr ⟨hx, hcx⟩)

/-! Claim theorems. -/

/-- C9: `pay_indulgence` clears `ban_until` and changes no other user
field; in particular `votes` is untouched, so a subsequent `apply_ban`
computes exactly the same escalated duration and ban state. -/
theorem C9_pay_indulgence_clears_only_ban (u : User) :
    (pay_indulgence u).ban_until = none ∧
    (pay_indulgence u).votes = u.votes ∧
    (pay_indulgence u).tid = u.tid ∧
    (pay_indulgence u).isref = u.isref ∧
    (pay_indulgence u).refscount = u.refscount ∧
    (pay_indulgence u).regtime = u.regtime ∧
    (pay_indulgence u).isactive = u.isactive ∧
    (pay_indulgence u).isadmin = u.isadmin ∧
    (pay_indulgence u).isblocked = u.isblocked ∧
    (pay_indulgence u).global_activity_until = u.global_activity_until ∧
    (pay_indulgence u).heartbeat_until = u.heartbeat_until ∧
    ∀ now, (apply_ban (pay_indulgence u) now).1 = (apply_ban u now).1 ∧
      (apply_ban (pay_indulgence u) now).2.votes = (apply_ban u now).2.votes ∧
      (apply_ban (pay_indulgence u) now).2.ban_until = (apply_ban u now).2.ban_until :=
  ⟨rfl, rfl, rfl, rfl, rfl, rfl, rfl, rfl, rfl, rfl, rfl,
   fun _ => ⟨rfl, rfl, rfl⟩⟩

/-- C5: `confirm_payment` on a donor whose occupied donor slot is
already paid is rejected with ALREADY_CONFIRMED and leaves the board
(including `gifts_received` and every paid flag) unchanged. -/
theorem C5_confirm_already_paid_noop (t : Table) (tid : Nat)
    (hocc : ∃ s, occ t s = some tid)
    (hpaid : ∀ s, occ t s = some tid → pay t s = true) :
    confirm_payment t tid = ⟨false, "ALREADY_CONFIRMED", none, t⟩ := by
  obtain ⟨s0, hs0⟩ := hocc
  have hfind : (donorSlots.find? (fun s => occ t s == some tid)).isSome := by
    rw [List.find?_isSome]
    exact ⟨s0, mem_donorSlots s0, by simp [hs0]⟩
  obtain ⟨s1, hs1⟩ := Option.isSome_iff_exists.mp hfind
  have hp : occ t s1 = some tid := by
    have := List.find?_some hs1
    simpa using this
  unfold confirm_payment
  rw [hs1]
  simp [hpaid s1 hp]

/-- C5 witness: `mixedBoard`'s donor 22 sits in `dl3` with
`paid=true`; the second confirm is a rejected no-op. -/
theorem C5_witness :
    confirm_payment mixedBoard 22 = ⟨false, "ALREADY_CONFIRMED", none, mixedBoard⟩ :=
  C5_confirm_already_paid_noop mixedBoard 22 ⟨.dl3, by decide⟩ (by decide)

/-- C10: when a successful `confirm_payment` leaves both sides
split-ready, the result reports only "left"; the right side's
readiness is not reported. -/
theorem C10_confirm_reports_left_when_both_ready (t : Table) (tid : Nat)
    (hok : (confirm_payment t tid).ok = true)
    (hl : can_split_left (confirm_payment t tid).table = true)
    (hr : can_split_right (confirm_payment t tid).table = true) :
    (confirm_payment t tid).side = some "left" := by
  cases hfind : donorSlots.find? (fun s => occ t s == some tid) with
  | none =>
    unfold confirm_payment at hok
    rw [hfind] at hok
    simp at hok
  | some s =>
    unfold confirm_payment at hok hl ⊢
    rw [hfind] at hok hl ⊢
    dsimp only at hok hl ⊢
    by_cases hp : pay t s = true
    · rw [if_pos hp] at hok
      exact absurd hok (by simp)
    · rw [if_neg hp] at hl ⊢
      dsimp only at hl ⊢
      rw [if_pos hl]

/-- C10 witness: confirming tid 14 on `bothReadyBoard` succeeds,
makes both sides split-ready, and reports "left". -/
theorem C10_witness :
    (confirm_payment bothReadyBoard 14).ok = true ∧
    can_split_left (confirm_payment bothReadyBoard 14).table = true ∧
    can_split_right (confirm_payment bothReadyBoard 14).table = true ∧
    (confirm_payment bothReadyBoard 14).side = some "left" :=
  ⟨by decide, by decide, by decide,
   C10_confirm_reports_left_when_both_ready bothReadyBoard 14
     (by decide) (by decide) (by decide)⟩

/-- C8: `leave_table` succeeds exactly on an unpaid occupied donor
slot, clearing its occupant, deadline and paid flag and touching no
other slot; it rejects with ALREADY_PAID on a paid slot and with
NOT_A_DONOR when the user occupies no donor slot, leaving the board
unchanged in both rejection cases.  (The user occupies at most one
donor slot, the per-board occupancy invariant.) -/
theorem C8_leave_table_spec (t : Table) (uid : Nat)
    (huniq : ∀ s1 s2, occ t s1 = some uid → occ t s2 = some uid → s1 = s2) :
    (∀ s, occ t s = some uid → pay t s = false →
      (leave_table t uid).ok = true ∧
      (leave_table t uid).reason = "LEFT_" ++ (slotName s).toUpper ∧
      occ (leave_table t uid).table s = none ∧
      ddl (leave_table t uid).table s = none ∧
      pay (leave_table t uid).table s = false ∧
      (∀ s', s' ≠ s → occ (leave_table t uid).table s' = occ t s' ∧
        ddl (leave_table t uid).table s' = ddl t s' ∧
        pay (leave_table t uid).table s' = pay t s')) ∧
    (∀ s, occ t s = some uid → pay t s = true →
      leave_table t uid = ⟨false, "ALREADY_PAID", t⟩) ∧
    ((∀ s, occ t s ≠ some uid) →
      leave_table t uid = ⟨false, "NOT_A_DONOR", t⟩) := by
  refine ⟨?_, ?_, ?_⟩
  · intro s hs hpay
    have hfind := find_donor_unique t uid s huniq hs
    unfold leave_table
    rw [hfind]
    dsimp only
    rw [if_neg (by simp [hpay])]
    refine ⟨rfl, rfl, ?_, ?_, ?_, ?_⟩
    · rw [occ_setPay, occ_setDdl, occ_setOcc, if_pos rfl]
    · rw [ddl_setPay, ddl_setDdl, if_pos rfl]
    · rw [pay_setPay, if_pos rfl]
    · intro s' hne
      refine ⟨?_, ?_, ?_⟩
      · rw [occ_setPay, occ_setDdl, occ_setOcc, if_neg hne]
      · rw [ddl_setPay, ddl_setDdl, if_neg hne, ddl_setOcc]
      · rw [pay_setPay, if_neg hne, pay_setDdl, pay_setOcc]
  · intro s hs hpay
    have hfind := find_donor_unique t uid s huniq hs
    unfold leave_table
    rw [hfind]
    dsimp only
    rw [if_pos hpay]
  · intro hno
    have hfind : donorSlots.find? (fun s' => occ t s' == some uid) = none := by
      rw [List.find?_eq_none]
      intro s _
      simp [hno s]
    unfold leave_table
    rw [hfind]

/-- C8 witness: on `mixedBoard`, the unpaid donor 21 leaves
successfully and the paid donor 22 is rejected with ALREADY_PAID. -/
theorem C8_witness :
    ((leave_table mixedBoard 21).ok = true ∧
      occ (leave_table mixedBoard 21).table .dl2 = none) ∧
    leave_table mixedBoard 22 = ⟨false, "ALREADY_PAID", mixedBoard⟩ :=
  ⟨⟨((C8_leave_table_spec mixedBoard 21 (by decide)).1 .dl2 (by decide) (by decide)).1,
    ((C8_leave_table_spec mixedBoard 21 (by decide)).1 .dl2 (by decide) (by decide)).2.2.1⟩,
   (C8_leave_table_spec mixedBoard 22 (by decide)).2.1 .dl3 (by decide) (by decide)⟩

/-- C3 counterexample: `closedBoard` has status "closed", yet
`confirm_payment` succeeds on it (pushing `gifts_received` to 9) and
`leave_table` succeeds on it (clearing `dr5`): slot-mutating
operations other than `join_table` are not rejected on a Closed
board. -/
theorem C3_counterexample :
    closedBoard.status = CLOSED ∧
    (confirm_payment closedBoard 77).ok = true ∧
    (confirm_payment closedBoard 77).table.gifts_received = 9 ∧
    (leave_table closedBoard 77).ok = true ∧
    (leave_table closedBoard 77).table.dr5 = none := by
  decide

/-- C3 amended: Closed blocks only `join_table`, which rejects a
closed board with TABLE_CLOSED and leaves it unchanged;
`leave_table`, `confirm_payment` and `split_table` perform no
Closed-status check, and can mutate a closed board: on the closed
`closedBoard` a leave and a confirm succeed, and on the closed
`closedSplitReadyBoard` (whose right side is still full and paid) a
right split succeeds and clears the side's slots. -/
theorem C3_closed_guard_only_join :
    (∀ (db : List Table) (t : Table) (uid now : Nat), t.status = CLOSED →
      join_table db t uid now = ⟨false, "TABLE_CLOSED", none, t⟩) ∧
    (leave_table closedBoard 77).ok = true ∧
    (confirm_payment closedBoard 77).ok = true ∧
    (closedSplitReadyBoard.status = CLOSED ∧
      closedSplitReadyBoard.dr5 = some 15 ∧
      (split_table closedSplitReadyBoard "right" 3 100).ok = true ∧
      (split_table closedSplitReadyBoard "right" 3 100).parent.dr5 = none) := by
  refine ⟨?_, by decide, by decide, by decide, by decide, by decide, by decide⟩
  intro db t uid now h
  cases ha : t.isactive <;> simp [join_table, ha, h]

/-- C3 witness: the closed `closedBoard` rejects a join unchanged. -/
theorem C3_witness :
    join_table [] closedBoard 9 0 = ⟨false, "TABLE_CLOSED", none, closedBoard⟩ :=
  C3_closed_guard_only_join.1 [] closedBoard 9 0 rfl

/-- C1 counterexample: `leftPaidBoard` satisfies the counter
invariant (`gifts_received = 4 =` number of paid slots), yet after
the successful left split the parent keeps `gifts_received = 4` while
no donor slot is paid any more: the invariant does not survive
`split_table`. -/
theorem C1_counterexample :
    leftPaidBoard.gifts_received = paid_count leftPaidBoard ∧
    (split_table leftPaidBoard "left" 2 1000).ok = true ∧
    (split_table leftPaidBoard "left" 2 1000).parent.gifts_received = 4 ∧
    paid_count (split_table leftPaidBoard "left" 2 1000).parent = 0 := by
  decide

/-- C1 amended: `gifts_received = ` number of paid donor slots is
preserved by `join_table`, `leave_table`, `confirm_payment` and
deadline eviction (`kick_donor` on a slot listed by
`get_expired_donors`), on boards whose empty slots carry no stale
paid flag; `split_table` instead clears the split side's four paid
flags without decrementing `gifts_received` — it counts lifetime
gifts — so a successful split leaves the parent with
`gifts_received = paid_count + 4`. -/
theorem C1_gifts_counter_invariant :
    (∀ (db : List Table) (t : Table) (uid now : Nat), empty_unpaid t → gifts_inv t →
      gifts_inv (join_table db t uid now).table) ∧
    (∀ (t : Table) (uid : Nat), gifts_inv t → gifts_inv (leave_table t uid).table) ∧
    (∀ (t : Table) (uid : Nat), gifts_inv t → gifts_inv (confirm_payment t uid).table) ∧
    (∀ (t : Table) (s : DSlot) (tid now : Nat),
      (s, tid) ∈ get_expired_donors t now → gifts_inv t →
      gifts_inv (kick_donor t s).table) ∧
    (∀ (t : Table) (side : String) (nid now : Nat), gifts_inv t →
      (split_table t side nid now).ok = true →
      (split_table t side nid now).parent.gifts_received
        = paid_count (split_table t side nid now).parent + 4) := by
  refine ⟨?_, ?_, ?_, ?_, ?_⟩
  · intro db t uid now hEU hInv
    unfold join_table
    split
    · exact hInv
    split
    · exact hInv
    split
    · exact hInv
    split
    · exact hInv
    dsimp only
    split
    · exact hInv
    · rename_i s hs
      have hocc : occ t s = none := by
        rcases hfe : get_first_empty_slot t
            (decide (empty_slots_left t ≤ empty_slots_right t)) with _ | s'
        · rw [hfe] at hs
          dsimp only at hs
          exact first_empty_isNone t _ s hs
        · rw [hfe] at hs
          dsimp only at hs
          cases hs
          exact first_empty_isNone t _ _ hfe
      have hpay : pay t s = false := hEU s hocc
      have base := gifts_inv_overwrite_unpaid t s (some uid)
        (some (now + PAYMENT_TIMEOUT)) hpay hInv
      dsimp only
      split
      · exact (gifts_inv_setStatus _ _).mpr base
      · exact base
  · intro t uid hInv
    unfold leave_table
    split
    · exact hInv
    · split
      · exact hInv
      · rename_i hpay
        exact gifts_inv_overwrite_unpaid t _ none none
          (Bool.not_eq_true _ ▸ eq_false_of_ne_true hpay) hInv
  · intro t uid hInv
    unfold confirm_payment
    split
    · exact hInv
    · rename_i s _
      split
      · exact hInv
      · rename_i hpay
        have hp : pay t s = false := eq_false_of_ne_true hpay
        dsimp only
        unfold gifts_inv at *
        rw [gifts_addGift, paid_count_addGift, gifts_setPay,
          paid_count_setPay_true t s hp, hInv]
  · intro t s tid now hmem hInv
    obtain ⟨hocc, hpay⟩ := expired_unpaid t now s tid hmem
    unfold kick_donor
    rw [hocc]
    exact gifts_inv_overwrite_unpaid t s none none hpay hInv
  · intro t side nid now hInv hok
    unfold split_table at hok ⊢
    by_cases hL : side == "left"
    · rw [if_pos hL] at hok ⊢
      by_cases hcs : can_split_left t = true
      · rw [if_neg (by simp [hcs])] at hok ⊢
        obtain ⟨p1, p2, p3, p4⟩ := can_split_left_flags t hcs
        unfold gifts_inv at hInv
        simp [paid_count, left_payments, right_payments, b2n, p1, p2, p3, p4] at hInv
        dsimp only
        split <;>
          simp [closeTable, paid_count, left_payments, right_payments, b2n] <;>
          omega
      · rw [if_pos (by simp [hcs])] at hok
        simp at hok
    · rw [if_neg hL] at hok ⊢
      by_cases hR : side == "right"
      · rw [if_pos hR] at hok ⊢
        by_cases hcs : can_split_right t = true
        · rw [if_neg (by simp [hcs])] at hok ⊢
          obtain ⟨p1, p2, p3, p4⟩ := can_split_right_flags t hcs
          unfold gifts_inv at hInv
          simp [paid_count, left_payments, right_payments, b2n, p1, p2, p3, p4] at hInv
          dsimp only
          split <;>
            simp [closeTable, paid_count, left_payments, right_payments, b2n] <;>
            omega
        · rw [if_pos (by simp [hcs])] at hok
          simp at hok
      · rw [if_neg hR] at hok
        simp at hok

/-- C1 witness: the preserved cases evaluated at concrete inputs, and
the split relation on `leftPaidBoard`. -/
theorem C1_witness :
    gifts_inv (join_table [] baseBoard 42 10).table ∧
    gifts_inv (leave_table mixedBoard 21).table ∧
    gifts_inv (confirm_payment mixedBoard 21).table ∧
    gifts_inv (kick_donor mixedBoard .dl2).table ∧
    (split_table leftPaidBoard "left" 2 1000).parent.gifts_received
      = paid_count (split_table leftPaidBoard "left" 2 1000).parent + 4 :=
  ⟨C1_gifts_counter_invariant.1 [] baseBoard 42 10 (by decide) (by decide),
   C1_gifts_counter_invariant.2.1 mixedBoard 21 (by decide),
   C1_gifts_counter_invariant.2.2.1 mixedBoard 21 (by decide),
   C1_gifts_counter_invariant.2.2.2.1 mixedBoard .dl2 21 99999999 (by decide) (by decide),
   C1_gifts_counter_invariant.2.2.2.2 leftPaidBoard "left" 2 1000 (by decide) (by decide)⟩

/-- C2 counterexample: `fullPaidBoard` is built from a genesis board
by joins and confirms only — no split has ever been performed on
either side — yet its very first split (of the left side) closes the
board, because `gifts_received` already reached 8.  The board closes
although the right side has never been split. -/
theorem C2_counterexample :
    fullPaidBoard.status = ACTIVE ∧
    can_split_right fullPaidBoard = true ∧
    (split_table fullPaidBoard "left" 2 99).ok = true ∧
    (split_table fullPaidBoard "left" 2 99).parent.status = CLOSED ∧
    (split_table fullPaidBoard "left" 2 99).parent.isactive = false := by
  decide

/-- C2 amended: closure happens only inside `split_table`: a
successful split closes the board (status CLOSED, inactive) precisely
when `gifts_received` has reached 8 — all 8 lifetime gifts delivered —
regardless of whether both sides have ever been split; no other
slot operation ever closes a board. -/
theorem C2_close_iff_eight_gifts :
    (∀ (t : Table) (side : String) (nid now : Nat), t.status ≠ CLOSED →
      (split_table t side nid now).ok = true →
      (((split_table t side nid now).parent.status = CLOSED ∧
        (split_table t side nid now).parent.isactive = false) ↔
        8 ≤ t.gifts_received)) ∧
    (∀ (db : List Table) (t : Table) (uid now : Nat), t.status ≠ CLOSED →
      (join_table db t uid now).table.status ≠ CLOSED) ∧
    (∀ (t : Table) (uid : Nat), t.status ≠ CLOSED →
      (leave_table t uid).table.status ≠ CLOSED) ∧
    (∀ (t : Table) (uid : Nat), t.status ≠ CLOSED →
      (confirm_payment t uid).table.status ≠ CLOSED) ∧
    (∀ (t : Table) (s : DSlot), t.status ≠ CLOSED →
      (kick_donor t s).table.status ≠ CLOSED) := by
  refine ⟨?_, ?_, ?_, ?_, ?_⟩
  · intro t side nid now hne hok
    unfold split_table at hok ⊢
    by_cases hL : side == "left"
    · rw [if_pos hL] at hok ⊢
      by_cases hcs : can_split_left t = true
      · rw [if_neg (by simp [hcs])] at hok ⊢
        dsimp only
        split
        · rename_i hcomp
          exact iff_of_true ⟨rfl, rfl⟩ (by simpa [is_complete] using hcomp)
        · rename_i hcomp
          exact iff_of_false (fun h => hne h.1) (by simpa [is_complete] using hcomp)
      · rw [if_pos (by simp [hcs])] at hok
        simp at hok
    · rw [if_neg hL] at hok ⊢
      by_cases hR : side == "right"
      · rw [if_pos hR] at hok ⊢
        by_cases hcs : can_split_right t = true
        · rw [if_neg (by simp [hcs])] at hok ⊢
          dsimp only
          split
          · rename_i hcomp
            exact iff_of_true ⟨rfl, rfl⟩ (by simpa [is_complete] using hcomp)
          · rename_i hcomp
            exact iff_of_false (fun h => hne h.1) (by simpa [is_complete] using hcomp)
        · rw [if_pos (by simp [hcs])] at hok
          simp at hok
      · rw [if_neg hR] at hok
        simp at hok
  · intro db t uid now hne
    unfold join_table
    dsimp only
    split
    · exact hne
    split
    · exact hne
    split
    · exact hne
    split
    · exact hne
    split
    · exact hne
    · dsimp only
      split
      · rw [status_setStatus]
        decide
      · rw [status_setPay, status_setDdl, status_setOcc]
        exact hne
  · intro t uid hne
    unfold leave_table
    split
    · exact hne
    · dsimp only
      split
      · exact hne
      · rw [status_setPay, status_setDdl, status_setOcc]
        exact hne
  · intro t uid hne
    unfold confirm_payment
    split
    · exact hne
    · dsimp only
      split
      · exact hne
      · rw [status_addGift, status_setPay]
        exact hne
  · intro t s hne
    unfold kick_donor
    split
    · exact hne
    · rw [status_setPay, status_setDdl, status_setOcc]
      exact hne

/-- C2 witness: the closure equivalence applied to `fullPaidBoard`
(which closes on its first split) and the join case applied to
`baseBoard`. -/
theorem C2_witness :
    (((split_table fullPaidBoard "left" 2 99).parent.status = CLOSED ∧
      (split_table fullPaidBoard "left" 2 99).parent.isactive = false) ↔
      8 ≤ fullPaidBoard.gifts_received) ∧
    (join_table [] baseBoard 42 10).table.status ≠ CLOSED :=
  ⟨C2_close_iff_eight_gifts.1 fullPaidBoard "left" 2 99 (by decide) (by decide),
   C2_close_iff_eight_gifts.2.1 [] baseBoard 42 10 (by decide)⟩

/-- C4: on a split-ready side, `split_table` performs exactly the
binary promotion — the side's Creator, 2 Builders and 4 Donors move
to the child's Receiver, 2 Creators and 4 Builders positions in order
(no user id lost or duplicated), the child starts Waiting with all 8
donor slots empty and `parent_id`/`split_side` recorded, and the
parent's slots for that side plus their paid flags and deadlines are
cleared while the other side and the Receiver are untouched; on a
side that is not split-ready (or an invalid side) the split is
rejected and the board unchanged. -/
theorem C4_split_binary_promotion (t : Table) (nid now : Nat) :
    (can_split_left t = true →
      (split_table t "left" nid now).ok = true ∧
      ∃ c, (split_table t "left" nid now).child = some c ∧
        ([t.crl, t.stl1, t.stl2, t.dl1, t.dl2, t.dl3, t.dl4]
          = [c.recv, c.crl, c.crr, c.stl1, c.stl2, c.str3, c.str4]) ∧
        (∀ s, occ c s = none ∧ pay c s = false ∧ ddl c s = none) ∧
        (c.status = WAITING ∧ c.isactive = true ∧ c.gifts_received = 0 ∧
          c.parent_id = some t.id ∧ c.split_side = some "left" ∧ c.level = t.level) ∧
        ((split_table t "left" nid now).parent.crl = none ∧
          (split_table t "left" nid now).parent.stl1 = none ∧
          (split_table t "left" nid now).parent.stl2 = none) ∧
        (∀ s ∈ leftSlots, occ (split_table t "left" nid now).parent s = none ∧
          pay (split_table t "left" nid now).parent s = false ∧
          ddl (split_table t "left" nid now).parent s = none) ∧
        ((split_table t "left" nid now).parent.recv = t.recv ∧
          (split_table t "left" nid now).parent.crr = t.crr ∧
          (split_table t "left" nid now).parent.str3 = t.str3 ∧
          (split_table t "left" nid now).parent.str4 = t.str4) ∧
        (∀ s ∈ rightSlots, occ (split_table t "left" nid now).parent s = occ t s ∧
          pay (split_table t "left" nid now).parent s = pay t s ∧
          ddl (split_table t "left" nid now).parent s = ddl t s)) ∧
    (can_split_left t = false →
      split_table t "left" nid now = ⟨false, "LEFT_NOT_READY", none, t⟩) ∧
    (can_split_right t = true →
      (split_table t "right" nid now).ok = true ∧
      ∃ c, (split_table t "right" nid now).child = some c ∧
        ([t.crr, t.str3, t.str4, t.dr5, t.dr6, t.dr7, t.dr8]
          = [c.recv, c.crl, c.crr, c.stl1, c.stl2, c.str3, c.str4]) ∧
        (∀ s, occ c s = none ∧ pay c s = false ∧ ddl c s = none) ∧
        (c.status = WAITING ∧ c.isactive = true ∧ c.gifts_received = 0 ∧
          c.parent_id = some t.id ∧ c.split_side = some "right" ∧ c.level = t.level) ∧
        ((split_table t "right" nid now).parent.crr = none ∧
          (split_table t "right" nid now).parent.str3 = none ∧
          (split_table t "right" nid now).parent.str4 = none) ∧
        (∀ s ∈ rightSlots, occ (split_table t "right" nid now).parent s = none ∧
          pay (split_table t "right" nid now).parent s = false ∧
          ddl (split_table t "right" nid now).parent s = none) ∧
        ((split_table t "right" nid now).parent.recv = t.recv ∧
          (split_table t "right" nid now).parent.crl = t.crl ∧
          (split_table t "right" nid now).parent.stl1 = t.stl1 ∧
          (split_table t "right" nid now).parent.stl2 = t.stl2) ∧
        (∀ s ∈ leftSlots, occ (split_table t "right" nid now).parent s = occ t s ∧
          pay (split_table t "right" nid now).parent s = pay t s ∧
          ddl (split_table t "right" nid now).parent s = ddl t s)) ∧
    (can_split_right t = false →
      split_table t "right" nid now = ⟨false, "RIGHT_NOT_READY", none, t⟩) ∧
    (∀ side : String, side ≠ "left" → side ≠ "right" →
      split_table t side nid now = ⟨false, "INVALID_SIDE", none, t⟩) := by
  refine ⟨?_, ?_, ?_, ?_, ?_⟩
  · intro hcs
    unfold split_table
    rw [if_pos (show (("left" : String) == "left") = true by decide)]
    rw [if_neg (by simp [hcs])]
    dsimp only
    split <;>
      exact ⟨rfl, _, rfl, rfl,
        fun s => by cases s <;> exact ⟨rfl, rfl, rfl⟩,
        ⟨rfl, rfl, rfl, rfl, rfl, rfl⟩,
        ⟨rfl, rfl, rfl⟩,
        fun s hs => by fin_cases hs <;> exact ⟨rfl, rfl, rfl⟩,
        ⟨rfl, rfl, rfl, rfl⟩,
        fun s hs => by fin_cases hs <;> exact ⟨rfl, rfl, rfl⟩⟩
  · intro hcs
    unfold split_table
    rw [if_pos (show (("left" : String) == "left") = true by decide)]
    rw [if_pos (by simp [hcs])]
  · intro hcs
    unfold split_table
    rw [if_neg (by decide)]
    rw [if_pos (show (("right" : String) == "right") = true by decide)]
    rw [if_neg (by simp [hcs])]
    dsimp only
    split <;>
      exact ⟨rfl, _, rfl, rfl,
        fun s => by cases s <;> exact ⟨rfl, rfl, rfl⟩,
        ⟨rfl, rfl, rfl, rfl, rfl, rfl⟩,
        ⟨rfl, rfl, rfl⟩,
        fun s hs => by fin_cases hs <;> exact ⟨rfl, rfl, rfl⟩,
        ⟨rfl, rfl, rfl, rfl⟩,
        fun s hs => by fin_cases hs <;> exact ⟨rfl, rfl, rfl⟩⟩
  · intro hcs
    unfold split_table
    rw [if_neg (by decide)]
    rw [if_pos (show (("right" : String) == "right") = true by decide)]
    rw [if_pos (by simp [hcs])]
  · intro side h1 h2
    unfold split_table
    rw [if_neg (by simp [h1]), if_neg (by simp [h2])]

/-- C4 witness: `splitReadyBoard` splits on its ready left side and
is rejected on its unready right side. -/
theorem C4_witness :
    (split_table splitReadyBoard "left" 7 1234).ok = true ∧
    split_table splitReadyBoard "right" 7 1234
      = ⟨false, "RIGHT_NOT_READY", none, splitReadyBoard⟩ :=
  ⟨((C4_split_binary_promotion splitReadyBoard 7 1234).1 (by decide)).1,
   (C4_split_binary_promotion splitReadyBoard 7 1234).2.2.2.1 (by decide)⟩

/-- C6: on an active non-closed board with an empty donor slot, a
user not on the board and not on another board of that level claims
the first empty slot (in fixed intra-side order) of the side with
fewer empty slots — ties going left — falling back to the other side
when the fuller side is full; the slot's deadline becomes now + 72h
and its paid flag false, and a Waiting board becomes Active. -/
theorem C6_join_assigns_balanced_slot (db : List Table) (t : Table) (uid now : Nat)
    (hact : t.isactive = true) (hncl : t.status ≠ CLOSED)
    (hempty : 0 < empty_slots_total t)
    (hnot_on : is_user_on_table t uid = false)
    (hnot_lvl : is_user_on_level db uid t.level = false) :
    (join_table db t uid now).ok = true ∧
    (join_table db t uid now).reason = "SUCCESS" ∧
    (∃ s, (join_table db t uid now).slot = some s ∧
      occ (join_table db t uid now).table s = some uid ∧
      ddl (join_table db t uid now).table s = some (now + 72 * 60 * 60) ∧
      pay (join_table db t uid now).table s = false ∧
      (0 < empty_slots_left t → empty_slots_left t ≤ empty_slots_right t →
        some s = first_empty_in t leftSlots) ∧
      (empty_slots_left t = 0 → some s = first_empty_in t rightSlots) ∧
      (0 < empty_slots_right t → empty_slots_right t < empty_slots_left t →
        some s = first_empty_in t rightSlots) ∧
      (empty_slots_right t = 0 → some s = first_empty_in t leftSlots)) ∧
    (t.status = WAITING → (join_table db t uid now).table.status = ACTIVE) ∧
    (t.status ≠ WAITING → (join_table db t uid now).table.status = t.status) := by
  unfold join_table
  rw [if_neg (by simp [hact]), if_neg (by simp [hncl]), if_neg (by simp [hnot_on]),
    if_neg (by simp [hnot_lvl])]
  dsimp only
  cases hfe : get_first_empty_slot t (decide (empty_slots_left t ≤ empty_slots_right t)) with
  | none => exact absurd (gfes_none t _ hfe) (by omega)
  | some s₀ =>
    dsimp only
    refine ⟨rfl, rfl, ⟨s₀, rfl, ?_, ?_, ?_, ?_, ?_, ?_, ?_⟩, ?_, ?_⟩
    · split <;> first
        | (rw [occ_setStatus, occ_setPay, occ_setDdl, occ_setOcc, if_pos rfl])
        | (rw [occ_setPay, occ_setDdl, occ_setOcc, if_pos rfl])
    · split <;> first
        | (rw [ddl_setStatus, ddl_setPay, ddl_setDdl, if_pos rfl])
        | (rw [ddl_setPay, ddl_setDdl, if_pos rfl])
      all_goals rfl
    · split <;> first
        | (rw [pay_setStatus, pay_setPay, if_pos rfl])
        | (rw [pay_setPay, if_pos rfl])
    · intro hl hle
      rw [(by simpa using hle : decide (empty_slots_left t ≤ empty_slots_right t) = true),
        gfes_true] at hfe
      obtain ⟨sl, hsl⟩ := first_empty_left_isSome t hl
      rw [hsl] at hfe
      have hfe' : (some sl : Option DSlot) = some s₀ := hfe
      obtain rfl : sl = s₀ := by injection hfe'
      exact hsl.symm
    · intro hl0
      rw [(by simp [hl0] : decide (empty_slots_left t ≤ empty_slots_right t) = true),
        gfes_true] at hfe
      rw [first_empty_left_none t hl0] at hfe
      have hfe' : first_empty_in t rightSlots = some s₀ := hfe
      exact hfe'.symm
    · intro hr hrl
      rw [(by simp [Nat.not_le_of_lt hrl] :
          decide (empty_slots_left t ≤ empty_slots_right t) = false),
        gfes_false] at hfe
      obtain ⟨sr, hsr⟩ := first_empty_right_isSome t hr
      rw [hsr] at hfe
      have hfe' : (some sr : Option DSlot) = some s₀ := hfe
      obtain rfl : sr = s₀ := by injection hfe'
      exact hsr.symm
    · intro hr0
      have hl : 0 < empty_slots_left t := by
        unfold empty_slots_total at hempty
        omega
      rw [(by simp [hr0]; omega :
          decide (empty_slots_left t ≤ empty_slots_right t) = false),
        gfes_false] at hfe
      rw [first_empty_right_none t hr0] at hfe
      have hfe' : first_empty_in t leftSlots = some s₀ := hfe
      exact hfe'.symm
    · intro hw
      rw [if_pos (by rw [status_setPay, status_setDdl, status_setOcc]; simp [hw])]
      rw [status_setStatus]
    · intro hnw
      rw [if_neg (by rw [status_setPay, status_setDdl, status_setOcc]; simp [hnw])]
      rw [status_setPay, status_setDdl, status_setOcc]

/-- C6 witness: on the empty genesis board (tie, both sides 4 empty)
user 42 gets `dl1` with deadline 10+72h and the board turns Active;
on `splitReadyBoard` (left side full) the join falls back to the
right side. -/
theorem C6_witness :
    ((join_table [] baseBoard 42 10).ok = true ∧
      (join_table [] baseBoard 42 10).slot = some DSlot.dl1 ∧
      (join_table [] baseBoard 42 10).table.dl1_deadline = some 259210 ∧
      (join_table [] baseBoard 42 10).table.status = ACTIVE) ∧
    (join_table [] splitReadyBoard 43 10).slot = some DSlot.dr6 :=
  ⟨⟨(C6_join_assigns_balanced_slot [] baseBoard 42 10 (by decide) (by decide)
      (by decide) (by decide) (by decide)).1,
    by decide, by decide,
    (C6_join_assigns_balanced_slot [] baseBoard 42 10 (by decide) (by decide)
      (by decide) (by decide) (by decide)).2.2.2.1 (by decide)⟩,
   by decide⟩

/-- C7: for an eligible user, `find_table_for_user` walks the upline
(nearest mentor first, depth 100) and returns the first mentor's
active receiver board at the level with an empty donor slot, tagged
with that mentor; only when no mentor matches does it fall back to
global spillover, returning an active board at the level with an
empty slot that no other such board beats under `gifts_received`
descending then `created_at` ascending. -/
theorem C7_find_table_mentor_then_spillover
    (users : List User) (db : List Table) (user_tid level now : Nat)
    (hu : ∃ u, get_by_tid users user_tid = some u ∧ u.isblocked = false ∧
      is_banned u now = false)
    (hlvl : is_user_on_level db user_tid level = false) :
    (∀ (pre : List User) (m : User) (post : List User) (tm : Table),
      get_upline users user_tid 100 = pre ++ m :: post →
      (∀ m' ∈ pre, mentor_open db level m' = none) →
      mentor_open db level m = some tm →
      find_table_for_user users db user_tid level now
        = (some tm, "MENTOR_" ++ toString m.tid)) ∧
    ((∀ m ∈ get_upline users user_tid 100, mentor_open db level m = none) →
      ∀ tm reason, find_table_for_user users db user_tid level now = (some tm, reason) →
        reason = "GLOBAL_SPILLOVER" ∧ tm ∈ db ∧ spill_candidate level tm = true ∧
        ∀ x ∈ db, spill_candidate level x = true → spill_better tm x = false) := by
  obtain ⟨u, hgu, hbl, hbn⟩ := hu
  have hcj : can_user_join users db user_tid level now = (true, "OK") := by
    unfold can_user_join
    rw [hgu]
    dsimp only
    rw [if_neg (show ¬ (u.isblocked = true) by simp [hbl]),
      if_neg (show ¬ (is_banned u now = true) by simp [hbn]),
      if_neg (show ¬ (is_user_on_level db user_tid level = true) by simp [hlvl])]
  constructor
  · intro pre m post tm hupl hpre hm
    unfold find_table_for_user
    rw [hcj]
    dsimp only
    rw [hupl, mentor_scan_append_none db level pre _ hpre,
      mentor_scan_cons_some db level m post tm hm]
  · intro hall tm reason heq
    have hms : mentor_scan db level (get_upline users user_tid 100) = none := by
      have := mentor_scan_append_none db level
        (get_upline users user_tid 100) [] hall
      rwa [List.append_nil] at this
    unfold find_table_for_user at heq
    rw [hcj] at heq
    dsimp only at heq
    rw [hms] at heq
    cases hfo : find_any_open_table db level with
    | none =>
      rw [hfo] at heq
      dsimp only at heq
      injection heq with h1 _
      simp at h1
    | some t0 =>
      rw [hfo] at heq
      dsimp only at heq
      injection heq with h1 h2
      injection h1 with h1'
      obtain ⟨hmem, hcand, hbest⟩ := find_any_open_spec db level t0 hfo
      exact ⟨h2.symm, h1' ▸ hmem, h1' ▸ hcand, h1' ▸ hbest⟩

/-- C7 witness: user 1's mentor (tid 2) has the open board
`mentorBoard` at level 1, which the placement returns with the
mentor tag. -/
theorem C7_witness :
    find_table_for_user [mentee, mentorUser] [mentorBoard] 1 1 50
      = (some mentorBoard, "MENTOR_" ++ toString mentorUser.tid) :=
  (C7_find_table_mentor_then_spillover [mentee, mentorUser] [mentorBoard] 1 1 50
      ⟨mentee, by decide, by decide, by decide⟩ (by decide)).1
    [] mentorUser [] mentorBoard (by decide) (by simp) (by decide)

end GiftMatrix
